import Mathlib

/-!
Verification of the panel-schedule region detector and extraction pipeline
of this repository against its design specification.

The embedding starts from the list of contour bounding rectangles: the
pixel-level OpenCV operations (grayscale conversion, thresholding,
dilation, `findContours`, `boundingRect`) are external library calls, so
the detector `detect_panels_with_opencv` is modelled as a function of the
image dimensions, the configuration, and the list of bounding rectangles
those calls produce.  Everything from `bounding_boxes.sort` (line 47 of
`opencv_detector.py`) to the returned `panels` list is embedded directly.

Python integers are modelled as `Int`; the percentage bounds, which Python
computes with `/` (true division), are modelled exactly as rationals.
Text handled by `extract_from_image` is modelled as `List Char`
(a Python `str` is a sequence of code points).
-/

/-- An axis-aligned bounding rectangle `(x, y, w, h)` in pixel coordinates,
as returned by `cv2.boundingRect`. -/
structure Rect where
  x : Int
  y : Int
  w : Int
  h : Int
deriving DecidableEq, Repr

/-- The configuration surface of `detect_panels_with_opencv`:
`min_width_percent`, `min_height_percent`, `max_width_percent`,
`max_height_percent` and `padding` (`opencv_detector.py`, line 12). -/
structure Config where
  minWidthPercent : ℚ
  minHeightPercent : ℚ
  maxWidthPercent : ℚ
  maxHeightPercent : ℚ
  padding : Int
deriving DecidableEq, Repr

/-- The default configuration of `detect_panels_with_opencv`
(defaults `10, 10, 95, 95, 20` in the Python signature). -/
def defaultConfig : Config :=
  { minWidthPercent := 10, minHeightPercent := 10,
    maxWidthPercent := 95, maxHeightPercent := 95, padding := 20 }

/-- Line 54: `min_width = img_width * (min_width_percent / 100)`. -/
def min_width (imgWidth : Int) (cfg : Config) : ℚ :=
  (imgWidth : ℚ) * (cfg.minWidthPercent / 100)

/-- Line 55: `min_height = img_height * (min_height_percent / 100)`. -/
def min_height (imgHeight : Int) (cfg : Config) : ℚ :=
  (imgHeight : ℚ) * (cfg.minHeightPercent / 100)

/-- Line 56: `max_width = img_width * (max_width_percent / 100)`. -/
def max_width (imgWidth : Int) (cfg : Config) : ℚ :=
  (imgWidth : ℚ) * (cfg.maxWidthPercent / 100)

/-- Line 57: `max_height = img_height * (max_height_percent / 100)`. -/
def max_height (imgHeight : Int) (cfg : Config) : ℚ :=
  (imgHeight : ℚ) * (cfg.maxHeightPercent / 100)

/-- The size filter of lines 69 and 70:
`w > min_width and h > min_height and w < max_width and h < max_height`. -/
def accepts (imgWidth imgHeight : Int) (cfg : Config) (r : Rect) : Bool :=
  decide ((r.w : ℚ) > min_width imgWidth cfg ∧ (r.h : ℚ) > min_height imgHeight cfg ∧
          (r.w : ℚ) < max_width imgWidth cfg ∧ (r.h : ℚ) < max_height imgHeight cfg)

/-- The padding and clamping of lines 72 to 75:
`x_pad = max(0, x - padding)`, `y_pad = max(0, y - padding)`,
`w_pad = min(img_width - x_pad, w + (padding * 2))`,
`h_pad = min(img_height - y_pad, h + (padding * 2))`. -/
def padRect (imgWidth imgHeight padding : Int) (r : Rect) : Rect :=
  let x_pad := max 0 (r.x - padding)
  let y_pad := max 0 (r.y - padding)
  let w_pad := min (imgWidth - x_pad) (r.w + padding * 2)
  let h_pad := min (imgHeight - y_pad) (r.h + padding * 2)
  { x := x_pad, y := y_pad, w := w_pad, h := h_pad }

/-- The first component of the sort key of line 47: `x[1] // 100`
(Python floor division of the rectangle's y coordinate by 100). -/
def rowBucket (r : Rect) : Int := Int.fdiv r.y 100

/-- The (non-strict, lexicographic) order on rectangles induced by the
sort key `(x[1] // 100, x[0])` of line 47. -/
def keyLe (a b : Rect) : Prop :=
  rowBucket a < rowBucket b ∨ (rowBucket a = rowBucket b ∧ a.x ≤ b.x)

instance : DecidableRel keyLe := fun a b => by
  unfold keyLe
  infer_instance

instance : IsTotal Rect keyLe := by
  constructor
  intro a b
  unfold keyLe
  omega

instance : IsTrans Rect keyLe := by
  constructor
  intro a b c hab hbc
  unfold keyLe at hab hbc ⊢
  omega

/-- Line 47: `bounding_boxes.sort(key=lambda x: (x[1] // 100, x[0]))`.
Python's sort is a stable ascending sort by the key; a stable insertion
sort by the same (total, transitive) key order computes the identical
permutation. -/
def sortBoxes (boxes : List Rect) : List Rect :=
  List.insertionSort keyLe boxes

/-- Python's `format(n, "02d")` for a natural number: decimal digits,
zero-padded on the left to a minimum width of two. -/
def pad2 (n : Nat) : String :=
  if n < 10 then "0" ++ toString n else toString n

/-- Line 85: `panel_name = f"Panel_" + format(panel_count, "02d")`. -/
def panelName (count : Nat) : String :=
  "Panel_" ++ pad2 count

/-- Line 88: the debug filename `page_` + `format(page_num, "02d")` +
`_opencv_panel_` + `format(panel_count, "02d")` + `.png`. -/
def debugFilename (pageNum count : Nat) : String :=
  "page_" ++ pad2 pageNum ++ "_opencv_panel_" ++ pad2 count ++ ".png"

/-- The filtering loop of lines 63 to 93, threading `panel_count`.
Each accepted rectangle contributes its panel name, the debug filename it
is saved under, and the padded rectangle the original image is cropped
to.  The diagnostic prints (lines 65, 66, 93) have no effect on the
result and are not modelled. -/
def detectLoop (pageNum : Nat) (imgWidth imgHeight : Int) (cfg : Config) (count : Nat) :
    List Rect → List (String × String × Rect)
  | [] => []
  | r :: rest =>
    if accepts imgWidth imgHeight cfg r then
      (panelName (count + 1), debugFilename pageNum (count + 1),
        padRect imgWidth imgHeight cfg.padding r)
        :: detectLoop pageNum imgWidth imgHeight cfg (count + 1) rest
    else
      detectLoop pageNum imgWidth imgHeight cfg count rest

/-- The full trace of `detect_panels_with_opencv` from the bounding boxes
on: sort (line 47), then filter, pad, name and save (lines 63 to 93).
Each entry is `(panel_name, saved debug filename, cropped rectangle)`. -/
def runDetector (pageNum : Nat) (imgWidth imgHeight : Int) (cfg : Config)
    (boxes : List Rect) : List (String × String × Rect) :=
  detectLoop pageNum imgWidth imgHeight cfg 0 (sortBoxes boxes)

/-- The value returned by `detect_panels_with_opencv` (line 95): the list
of `(panel_name, cropped_image)` pairs, the crop represented by its
rectangle. -/
def detect_panels_with_opencv (pageNum : Nat) (imgWidth imgHeight : Int) (cfg : Config)
    (boxes : List Rect) : List (String × Rect) :=
  (runDetector pageNum imgWidth imgHeight cfg boxes).map (fun t => (t.1, t.2.2))

/-- Python `str.strip()`: remove leading and trailing whitespace. -/
def pyStrip (s : List Char) : List Char :=
  ((s.dropWhile Char.isWhitespace).reverse.dropWhile Char.isWhitespace).reverse

/-- Python `s.startswith(pat)`: the first argument is the pattern. -/
def textStartsWith : List Char → List Char → Bool
  | [], _ => true
  | _ :: _, [] => false
  | p :: ps, c :: cs => p == c && textStartsWith ps cs

/-- Python `s.endswith(pat)`: the first argument is the pattern. -/
def textEndsWith (pat s : List Char) : Bool :=
  textStartsWith pat.reverse s.reverse

/-- Python `s[:-n]` for positive `n`: drop the last `n` characters. -/
def dropRightText (n : Nat) (s : List Char) : List Char :=
  s.take (s.length - n)

/-- Python `s.rstrip(",")`: remove all trailing commas. -/
def rstripCommas (s : List Char) : List Char :=
  (s.reverse.dropWhile (fun c => c == ',')).reverse

/-- The markdown-fence stripping of `PanelExtractor.extract_from_image`
(`panel_extractor.py`, lines 120 to 130): strip, then drop a leading
"```json" (7 characters), then a leading "```" (3 characters), then a
trailing "```" (3 characters), then strip again. -/
def stripFences (s : List Char) : List Char :=
  let t1 := pyStrip s
  let t2 := if textStartsWith "```json".toList t1 then t1.drop 7 else t1
  let t3 := if textStartsWith "```".toList t2 then t2.drop 3 else t2
  let t4 := if textEndsWith "```".toList t3 then dropRightText 3 t3 else t3
  pyStrip t4

/-- The incomplete-JSON repair of lines 133 to 136: when the text ends in
neither a closing brace nor a closing square bracket, trailing commas are
removed and the three characters of the literal `']\x7d\x7d'` appended. -/
def fixIncomplete (s : List Char) : List Char :=
  if !(textEndsWith ['\x7d'] s) && !(textEndsWith [']'] s) then
    rstripCommas s ++ [']', '\x7d', '\x7d']
  else s

/-- The response handling of `PanelExtractor.extract_from_image`
(lines 109 to 158) as a function of the model's response text.
`decodePanels` models the external `json.loads` combined with
`data.get("panels", [])`: `none` is a `json.JSONDecodeError`, in which
case the handler of lines 149 to 155 returns the empty list; an empty
raw response returns the empty list at line 117. -/
def extract_from_image {α : Type} (decodePanels : List Char → Option (List α))
    (responseText : List Char) : List α :=
  if responseText = [] then []
  else
    match decodePanels (fixIncomplete (stripFences responseText)) with
    | none => []
    | some panels => panels

/-- The per-page loop of `PanelExtractor.extract_from_pdf_page_images`
(`panel_extractor.py`, lines 160 to 211).  `opencvDetect` and
`geminiDetect` stand for `detect_panels_with_opencv` and
`detect_panels_in_image` applied to a page image and a page number; the
loop binds their result to `detected_panels`, prints, and never extends
`all_panels`, which is returned unchanged. -/
def extract_from_pdf_page_images {Img β γ δ : Type} (opencvDetect : Img → Nat → List β)
    (geminiDetect : Img → Nat → List γ) (images : List Img) (useOpencv : Bool) : List δ :=
  (images.enum).foldl
    (fun allPanels page =>
      if useOpencv then
        let _detected := opencvDetect page.2 (page.1 + 1)
        allPanels
      else
        let _detected := geminiDetect page.2 (page.1 + 1)
        allPanels)
    []

/-- Helper: a fold whose body returns the accumulator unchanged is the
identity on the initial value. -/
theorem foldl_of_const {α σ : Type} (f : α → σ → α) (hf : ∀ acc x, f acc x = acc) :
    ∀ (l : List σ) (init : α), l.foldl f init = init
  | [], _ => rfl
  | x :: t, init => by
    rw [List.foldl_cons, hf]
    exact foldl_of_const f hf t init

/-- C1: a contour bounding rectangle that lies within its page image
(`0 ≤ x`, `x + w ≤ W`, `0 ≤ y`, `y + h ≤ H`, `w ≥ 1`, `h ≥ 1`), once
accepted and padded with any non-negative padding, stays fully contained
in `[0, W) × [0, H)` and keeps strictly positive width and height. -/
theorem padded_rect_in_bounds (imgWidth imgHeight : Int) (cfg : Config) (r : Rect)
    (hx : 0 ≤ r.x) (hy : 0 ≤ r.y)
    (hxw : r.x + r.w ≤ imgWidth) (hyh : r.y + r.h ≤ imgHeight)
    (hw : 1 ≤ r.w) (hh : 1 ≤ r.h) (hp : 0 ≤ cfg.padding)
    (hacc : accepts imgWidth imgHeight cfg r = true) :
    0 ≤ (padRect imgWidth imgHeight cfg.padding r).x ∧
    0 ≤ (padRect imgWidth imgHeight cfg.padding r).y ∧
    (padRect imgWidth imgHeight cfg.padding r).x +
        (padRect imgWidth imgHeight cfg.padding r).w ≤ imgWidth ∧
    (padRect imgWidth imgHeight cfg.padding r).y +
        (padRect imgWidth imgHeight cfg.padding r).h ≤ imgHeight ∧
    0 < (padRect imgWidth imgHeight cfg.padding r).w ∧
    0 < (padRect imgWidth imgHeight cfg.padding r).h := by
  simp only [padRect]
  omega

/-- Witness for C1 at the spec's scenario: a 1000 by 1000 page with the
rectangle `(100, 100, 300, 300)` and the default configuration. -/
theorem padded_rect_in_bounds_witness :
    0 ≤ (padRect 1000 1000 defaultConfig.padding ⟨100, 100, 300, 300⟩).x ∧
    0 ≤ (padRect 1000 1000 defaultConfig.padding ⟨100, 100, 300, 300⟩).y ∧
    (padRect 1000 1000 defaultConfig.padding ⟨100, 100, 300, 300⟩).x +
        (padRect 1000 1000 defaultConfig.padding ⟨100, 100, 300, 300⟩).w ≤ 1000 ∧
    (padRect 1000 1000 defaultConfig.padding ⟨100, 100, 300, 300⟩).y +
        (padRect 1000 1000 defaultConfig.padding ⟨100, 100, 300, 300⟩).h ≤ 1000 ∧
    0 < (padRect 1000 1000 defaultConfig.padding ⟨100, 100, 300, 300⟩).w ∧
    0 < (padRect 1000 1000 defaultConfig.padding ⟨100, 100, 300, 300⟩).h :=
  padded_rect_in_bounds 1000 1000 defaultConfig ⟨100, 100, 300, 300⟩
    (by norm_num) (by norm_num) (by norm_num) (by norm_num) (by norm_num) (by norm_num)
    (by norm_num [defaultConfig])
    (by norm_num [accepts, min_width, min_height, max_width, max_height, defaultConfig])

/-- Helper: the filtering loop of lines 63 to 93 names, files and pads
the accepted rectangles in order, with `panel_count` starting at the
given value. -/
theorem detectLoop_eq_enumFrom (pageNum : Nat) (imgWidth imgHeight : Int) (cfg : Config)
    (l : List Rect) (n : Nat) :
    detectLoop pageNum imgWidth imgHeight cfg n l =
      ((l.filter (accepts imgWidth imgHeight cfg)).enumFrom n).map
        (fun p => (panelName (p.1 + 1), debugFilename pageNum (p.1 + 1),
          padRect imgWidth imgHeight cfg.padding p.2)) := by
  induction l generalizing n with
  | nil => rfl
  | cons r rest ih =>
    by_cases h : accepts imgWidth imgHeight cfg r = true
    · simp only [detectLoop, if_pos h, List.filter_cons_of_pos h, List.enumFrom_cons,
        List.map_cons, ih]
    · simp only [detectLoop, if_neg h, List.filter_cons_of_neg h, ih]

/-- C2: a bounding rectangle is accepted exactly when all four strict
size comparisons hold: `w` strictly between `W * min_width_percent / 100`
and `W * max_width_percent / 100`, and `h` strictly between
`H * min_height_percent / 100` and `H * max_height_percent / 100`. -/
theorem accepts_iff_size_bounds (imgWidth imgHeight : Int) (cfg : Config) (r : Rect) :
    accepts imgWidth imgHeight cfg r = true ↔
      ((imgWidth : ℚ) * cfg.minWidthPercent / 100 < (r.w : ℚ) ∧
       (r.w : ℚ) < (imgWidth : ℚ) * cfg.maxWidthPercent / 100 ∧
       (imgHeight : ℚ) * cfg.minHeightPercent / 100 < (r.h : ℚ) ∧
       (r.h : ℚ) < (imgHeight : ℚ) * cfg.maxHeightPercent / 100) := by
  simp only [accepts, min_width, min_height, max_width, max_height,
    decide_eq_true_eq, gt_iff_lt, mul_div_assoc]
  tauto

/-- C3: the padded rectangle of an accepted region is computed exactly as
`x' = max(0, x - p)`, `y' = max(0, y - p)`, `w' = min(W - x', w + 2p)`,
`h' = min(H - y', h + 2p)`, and the crops returned by the detector are
exactly the padded rectangles of the accepted boxes in order. -/
theorem padRect_formula (pageNum : Nat) (imgWidth imgHeight : Int) (cfg : Config)
    (boxes : List Rect) (r : Rect) :
    padRect imgWidth imgHeight cfg.padding r =
      { x := max 0 (r.x - cfg.padding), y := max 0 (r.y - cfg.padding),
        w := min (imgWidth - max 0 (r.x - cfg.padding)) (r.w + 2 * cfg.padding),
        h := min (imgHeight - max 0 (r.y - cfg.padding)) (r.h + 2 * cfg.padding) } ∧
    (detect_panels_with_opencv pageNum imgWidth imgHeight cfg boxes).map Prod.snd =
      ((sortBoxes boxes).filter (accepts imgWidth imgHeight cfg)).map
        (padRect imgWidth imgHeight cfg.padding) := by
  constructor
  · simp only [padRect, Rect.mk.injEq]
    refine ⟨trivial, trivial, ?_, ?_⟩ <;> omega
  · rw [detect_panels_with_opencv, runDetector, detectLoop_eq_enumFrom, List.map_map,
      List.map_map]
    have h2 : ∀ L : List Rect,
        L.map (padRect imgWidth imgHeight cfg.padding) =
          ((L.enumFrom 0).map Prod.snd).map (padRect imgWidth imgHeight cfg.padding) := by
      intro L
      rw [List.enumFrom_map_snd]
    rw [h2, List.map_map]
    rfl

/-- C4: when the configured minimum width percentage is at least the
maximum width percentage, or the same holds for the heights, no rectangle
passes the strict size filter, so the detector returns the empty
sequence for any input. -/
theorem contradictory_config_returns_empty (pageNum : Nat) (imgWidth imgHeight : Int)
    (cfg : Config) (boxes : List Rect) (hW : 0 ≤ imgWidth) (hH : 0 ≤ imgHeight)
    (hcfg : cfg.minWidthPercent ≥ cfg.maxWidthPercent ∨
      cfg.minHeightPercent ≥ cfg.maxHeightPercent) :
    detect_panels_with_opencv pageNum imgWidth imgHeight cfg boxes = [] := by
  have hacc : ∀ r : Rect, ¬ (accepts imgWidth imgHeight cfg r = true) := by
    intro r hr
    rw [accepts, decide_eq_true_eq] at hr
    obtain ⟨h1, h2, h3, h4⟩ := hr
    have hW2 : (0 : ℚ) ≤ (imgWidth : ℚ) := by exact_mod_cast hW
    have hH2 : (0 : ℚ) ≤ (imgHeight : ℚ) := by exact_mod_cast hH
    rcases hcfg with hc | hc
    · rw [min_width] at h1
      rw [max_width] at h3
      nlinarith [mul_nonneg hW2 (sub_nonneg.2 hc)]
    · rw [min_height] at h2
      rw [max_height] at h4
      nlinarith [mul_nonneg hH2 (sub_nonneg.2 hc)]
  have hfilter : (sortBoxes boxes).filter (accepts imgWidth imgHeight cfg) = [] := by
    rw [List.filter_eq_nil_iff]
    intro r _
    simpa using hacc r
  rw [detect_panels_with_opencv, runDetector, detectLoop_eq_enumFrom, hfilter]
  rfl

/-- Witness for C4: equal width percentages (95 and 95), a large page and
a rectangle that would pass any sane filter still yield no panels. -/
theorem contradictory_config_returns_empty_witness :
    detect_panels_with_opencv 1 1000 1000
      { minWidthPercent := 95, minHeightPercent := 10,
        maxWidthPercent := 95, maxHeightPercent := 95, padding := 20 }
      [⟨0, 0, 500, 500⟩] = [] :=
  contradictory_config_returns_empty 1 1000 1000
    { minWidthPercent := 95, minHeightPercent := 10,
      maxWidthPercent := 95, maxHeightPercent := 95, padding := 20 }
    [⟨0, 0, 500, 500⟩] (by norm_num) (by norm_num) (Or.inl (by norm_num))

/-- C5: the sorted list is ordered by the key `(y // 100, x)`: any earlier
element has a strictly lower row bucket, or the same bucket and an `x`
coordinate that is at most the later element's, so within a bucket the
smaller `x` comes first and a lower bucket precedes a higher one.  The
spec's rectangles `A = (10, 10, 50, 50)`, `B = (200, 15, 50, 50)` and
`C = (5, 150, 50, 50)` sort to `[A, B, C]`. -/
theorem sortBoxes_ordering :
    (∀ (boxes : List Rect) (i j : Fin (sortBoxes boxes).length), i < j →
      rowBucket ((sortBoxes boxes).get i) < rowBucket ((sortBoxes boxes).get j) ∨
        (rowBucket ((sortBoxes boxes).get i) = rowBucket ((sortBoxes boxes).get j) ∧
          ((sortBoxes boxes).get i).x ≤ ((sortBoxes boxes).get j).x)) ∧
    sortBoxes [⟨200, 15, 50, 50⟩, ⟨5, 150, 50, 50⟩, ⟨10, 10, 50, 50⟩] =
      [⟨10, 10, 50, 50⟩, ⟨200, 15, 50, 50⟩, ⟨5, 150, 50, 50⟩] := by
  constructor
  · intro boxes i j hij
    have hs : List.Sorted keyLe (sortBoxes boxes) := List.sorted_insertionSort keyLe boxes
    exact List.pairwise_iff_get.mp hs i j hij
  · decide

/-- Witness for C5: instantiating the ordering statement on the spec's
rectangles `A` and `B`, which share row bucket 0. -/
theorem sortBoxes_ordering_witness :
    rowBucket ((sortBoxes [⟨10, 10, 50, 50⟩, ⟨200, 15, 50, 50⟩]).get ⟨0, by decide⟩) <
        rowBucket ((sortBoxes [⟨10, 10, 50, 50⟩, ⟨200, 15, 50, 50⟩]).get ⟨1, by decide⟩) ∨
      (rowBucket ((sortBoxes [⟨10, 10, 50, 50⟩, ⟨200, 15, 50, 50⟩]).get ⟨0, by decide⟩) =
          rowBucket ((sortBoxes [⟨10, 10, 50, 50⟩, ⟨200, 15, 50, 50⟩]).get ⟨1, by decide⟩) ∧
        ((sortBoxes [⟨10, 10, 50, 50⟩, ⟨200, 15, 50, 50⟩]).get ⟨0, by decide⟩).x ≤
          ((sortBoxes [⟨10, 10, 50, 50⟩, ⟨200, 15, 50, 50⟩]).get ⟨1, by decide⟩).x) :=
  sortBoxes_ordering.1 [⟨10, 10, 50, 50⟩, ⟨200, 15, 50, 50⟩] ⟨0, by decide⟩ ⟨1, by decide⟩
    (by decide)

/-- C6: for an accepted rectangle lying within its page image and a
non-negative padding, the padded width and height are at least the
original ones, clamping included. -/
theorem padding_never_shrinks (imgWidth imgHeight : Int) (cfg : Config) (r : Rect)
    (hx : 0 ≤ r.x) (hy : 0 ≤ r.y)
    (hxw : r.x + r.w ≤ imgWidth) (hyh : r.y + r.h ≤ imgHeight)
    (hw : 1 ≤ r.w) (hh : 1 ≤ r.h) (hp : 0 ≤ cfg.padding)
    (hacc : accepts imgWidth imgHeight cfg r = true) :
    r.w ≤ (padRect imgWidth imgHeight cfg.padding r).w ∧
    r.h ≤ (padRect imgWidth imgHeight cfg.padding r).h := by
  simp only [padRect]
  omega

/-- Witness for C6 at the spec's scenario rectangle on a 1000 by 1000
page with the default configuration. -/
theorem padding_never_shrinks_witness :
    (300 : Int) ≤ (padRect 1000 1000 defaultConfig.padding ⟨100, 100, 300, 300⟩).w ∧
    (300 : Int) ≤ (padRect 1000 1000 defaultConfig.padding ⟨100, 100, 300, 300⟩).h :=
  padding_never_shrinks 1000 1000 defaultConfig ⟨100, 100, 300, 300⟩
    (by norm_num) (by norm_num) (by norm_num) (by norm_num) (by norm_num) (by norm_num)
    (by norm_num [defaultConfig])
    (by norm_num [accepts, min_width, min_height, max_width, max_height, defaultConfig])

/-- C7: the detector's trace lists the accepted rectangles of the sorted
filtering pass in order; the entry of index `k` carries the name
`Panel_` followed by `k + 1` zero-padded to two digits and the debug
filename `page_NN_opencv_panel_NN.png`, and the returned sequence is this
trace with the filenames dropped. -/
theorem detector_output_names_and_order (pageNum : Nat) (imgWidth imgHeight : Int)
    (cfg : Config) (boxes : List Rect) :
    runDetector pageNum imgWidth imgHeight cfg boxes =
      (((sortBoxes boxes).filter (accepts imgWidth imgHeight cfg)).enum).map
        (fun p => (panelName (p.1 + 1), debugFilename pageNum (p.1 + 1),
          padRect imgWidth imgHeight cfg.padding p.2)) ∧
    detect_panels_with_opencv pageNum imgWidth imgHeight cfg boxes =
      (runDetector pageNum imgWidth imgHeight cfg boxes).map (fun t => (t.1, t.2.2)) ∧
    panelName 1 = "Panel_01" ∧ panelName 2 = "Panel_02" ∧ panelName 12 = "Panel_12" ∧
    debugFilename 3 1 = "page_03_opencv_panel_01.png" := by
  refine ⟨?_, rfl, by decide, by decide, by decide, by decide⟩
  rw [runDetector, detectLoop_eq_enumFrom]
  rfl

/-- C8: the value returned by the detector is a pure function of the
image-derived bounding boxes, the image dimensions and the
configuration: it does not depend on `page_num`, which only enters the
debug filenames of the saved crops. -/
theorem detect_independent_of_page_num (pageNum1 pageNum2 : Nat) (imgWidth imgHeight : Int)
    (cfg : Config) (boxes : List Rect) :
    detect_panels_with_opencv pageNum1 imgWidth imgHeight cfg boxes =
      detect_panels_with_opencv pageNum2 imgWidth imgHeight cfg boxes := by
  rw [detect_panels_with_opencv, detect_panels_with_opencv, runDetector, runDetector,
    detectLoop_eq_enumFrom, detectLoop_eq_enumFrom, List.map_map, List.map_map]
  rfl

/-- C9: when the processed response text fails to decode as JSON
(`json.loads` raises, modelled by `decodePanels` returning `none`),
`extract_from_image` returns the empty list instead of raising or
retrying, so the caller's per-image loop continues with the next
input. -/
theorem extract_from_image_decode_failure {α : Type}
    (decodePanels : List Char → Option (List α)) (responseText : List Char)
    (hfail : decodePanels (fixIncomplete (stripFences responseText)) = none) :
    extract_from_image decodePanels responseText = [] := by
  rw [extract_from_image]
  split
  · rfl
  · rw [hfail]

/-- Witness for C9: a decoder that always fails on a concrete non-JSON
response yields the empty list. -/
theorem extract_from_image_decode_failure_witness :
    extract_from_image (fun _ => (none : Option (List Nat))) "not json at all".toList = [] :=
  extract_from_image_decode_failure (fun _ => (none : Option (List Nat)))
    "not json at all".toList rfl

/-- C10: `extract_from_pdf_page_images` returns the empty list for every
input: the loop binds each page's detection result but never extends
`all_panels`, whichever detector is selected and whatever it detects. -/
theorem extract_from_pdf_page_images_returns_empty {Img β γ δ : Type}
    (opencvDetect : Img → Nat → List β) (geminiDetect : Img → Nat → List γ)
    (images : List Img) (useOpencv : Bool) :
    @extract_from_pdf_page_images Img β γ δ opencvDetect geminiDetect images useOpencv = [] := by
  rw [extract_from_pdf_page_images]
  exact foldl_of_const _ (fun acc page => by cases useOpencv <;> rfl) images.enum []
